import Mathlib

/-!
Verification development for the constrite repository's analysis pipeline.

The definitions below are shallow embeddings of the Python sources:

* `src/utils/gemini_vision.py` — the response normalizer (`_parse_response`,
  `_get_default_value`, `_get_default_response`, `_get_error_response`,
  `_get_timeout_response`) and the retry loop of `analyze_image`;
* `src/utils/risk_scoring.py` — `calculate_risk_score`, `prioritize_actions`
  and `calculate_financial_impact`.

Python `dict` values produced by `json.loads` are modelled by the inductive
type `Json`; `json.loads` itself is modelled by `jsonParse`, a fuel-based
recursive-descent parser for the JSON grammar (objects, arrays, strings with
the standard escapes, numbers with fraction/exponent, literals), which fails
exactly where the Python parser raises `json.JSONDecodeError` (modelled by
`none`).  Machine floats are modelled by `ℚ`; at every concrete input used in
a theorem below the Python float computation is exact, so the rational model
agrees with the float one.  Python exceptions that escape a function are
modelled by `Except.error`.
-/

namespace Constrite

/-- A JSON value as produced by Python `json.loads`: objects are modelled as
insertion-ordered association lists (duplicate keys are collapsed to
first-position/last-value, as Python dicts do). -/
inductive Json where
  | null : Json
  | bool (b : Bool) : Json
  | num (q : ℚ) : Json
  | str (s : String) : Json
  | arr (elems : List Json) : Json
  | obj (members : List (String × Json)) : Json

/-- The four whitespace characters of the JSON grammar (also the common ASCII
whitespace stripped by Python `str.strip()`, together with `\x0b`/`\x0c`). -/
def isWsChar (c : Char) : Bool :=
  c == ' ' || c == '\t' || c == '\n' || c == '\r'

/-- Characters stripped by Python `str.strip()` with no argument (ASCII part). -/
def isPyWsChar (c : Char) : Bool :=
  c == ' ' || c == '\t' || c == '\n' || c == '\r' || c == '\x0b' || c == '\x0c'

def dropWs (cs : List Char) : List Char := cs.dropWhile isWsChar

/-- Strip characters satisfying `p` from both ends of a character list. -/
def stripBy (p : Char → Bool) (cs : List Char) : List Char :=
  ((cs.dropWhile p).reverse.dropWhile p).reverse

/-- Python `s.strip()` (ASCII whitespace model). -/
def pyStrip (cs : List Char) : List Char := stripBy isPyWsChar cs

/-- Does the list start with the given pattern of characters? -/
def startsWithL : List Char → List Char → Bool
  | [], _ => true
  | _ :: _, [] => false
  | p :: ps, c :: cs => p == c && startsWithL ps cs

/-- Does the list end with the given pattern of characters? -/
def endsWithL (pat cs : List Char) : Bool := startsWithL pat.reverse cs.reverse

/-- Python `pat in s` substring test. -/
def hasSub (pat : List Char) : List Char → Bool
  | [] => startsWithL pat []
  | c :: cs => startsWithL pat (c :: cs) || hasSub pat cs

/-- Numeric value of a digit string (most significant first). -/
def natOfDigits (ds : List Char) : ℕ :=
  ds.foldl (fun a c => a * 10 + (c.toNat - 48)) 0

/-- Optional fractional part of a JSON number. -/
def parseFrac (q : ℚ) (cs : List Char) : Option (ℚ × List Char) :=
  match cs with
  | '.' :: r =>
    let fds := r.takeWhile Char.isDigit
    if fds.isEmpty then none
    else some (q + (natOfDigits fds : ℚ) / (10 : ℚ) ^ fds.length, r.dropWhile Char.isDigit)
  | _ => some (q, cs)

/-- Optional exponent part of a JSON number. -/
def parseExp (q : ℚ) (cs : List Char) : Option (ℚ × List Char) :=
  match cs with
  | 'e' :: r | 'E' :: r =>
    let se := match r with
      | '+' :: rr => (false, rr)
      | '-' :: rr => (true, rr)
      | _ => (false, r)
    let eds := se.2.takeWhile Char.isDigit
    if eds.isEmpty then none
    else
      let e := natOfDigits eds
      some ((if se.1 then q / (10 : ℚ) ^ e else q * (10 : ℚ) ^ e), se.2.dropWhile Char.isDigit)
  | _ => some (q, cs)

/-- A JSON number: `-? (0 | [1-9][0-9]*) frac? exp?`. -/
def parseNumber (cs : List Char) : Option (ℚ × List Char) :=
  let sn := match cs with
    | '-' :: r => (true, r)
    | _ => (false, cs)
  let ir := match sn.2 with
    | '0' :: r => (['0'], r)
    | other => (other.takeWhile Char.isDigit, other.dropWhile Char.isDigit)
  if ir.1.isEmpty then none
  else
    match parseFrac ((natOfDigits ir.1 : ℕ) : ℚ) ir.2 with
    | none => none
    | some (q1, cs3) =>
      match parseExp q1 cs3 with
      | none => none
      | some (q2, cs4) => some ((if sn.1 then -q2 else q2), cs4)

/-- Hexadecimal digit value. -/
def hexVal (c : Char) : Option ℕ :=
  if c.isDigit then some (c.toNat - 48)
  else if 'a' ≤ c && c ≤ 'f' then some (c.toNat - 87)
  else if 'A' ≤ c && c ≤ 'F' then some (c.toNat - 55)
  else none

/-- Body of a JSON string after the opening quote: standard escapes, raw
control characters rejected (Python strict mode). -/
def parseStrAux : List Char → List Char → Option (List Char × List Char)
  | _, [] => none
  | acc, '"' :: r => some (acc.reverse, r)
  | acc, '\\' :: e :: r =>
    match e with
    | '"' => parseStrAux ('"' :: acc) r
    | '\\' => parseStrAux ('\\' :: acc) r
    | '/' => parseStrAux ('/' :: acc) r
    | 'n' => parseStrAux ('\n' :: acc) r
    | 't' => parseStrAux ('\t' :: acc) r
    | 'r' => parseStrAux ('\r' :: acc) r
    | 'b' => parseStrAux ('\x08' :: acc) r
    | 'f' => parseStrAux ('\x0c' :: acc) r
    | 'u' =>
      match r with
      | a :: b :: c :: d :: r2 =>
        match hexVal a, hexVal b, hexVal c, hexVal d with
        | some x, some y, some z, some w =>
          parseStrAux (Char.ofNat (((x * 16 + y) * 16 + z) * 16 + w) :: acc) r2
        | _, _, _, _ => none
      | _ => none
    | _ => none
  | acc, c :: r => if c.toNat < 32 then none else parseStrAux (c :: acc) r

/-- Insert a parsed object member in front of the (already collapsed) later
members, with Python-dict duplicate semantics: position of the first
occurrence, value of the last. -/
def consKV (k : String) (v : Json) (kvs : List (String × Json)) : List (String × Json) :=
  match kvs.lookup k with
  | some v2 => (k, v2) :: kvs.filter (fun p => !(p.1 == k))
  | none => (k, v) :: kvs

/-- Parser modes: a whole value, array items (possibly empty), the non-empty
tail of an array, object members (possibly empty), the non-empty tail of an
object. -/
inductive PMode where
  | value : PMode
  | arrItems : PMode
  | arrRest : PMode
  | objItems : PMode
  | objRest : PMode

/-- Intermediate parser results for the three modes. -/
inductive PRes where
  | v (j : Json) : PRes
  | items (xs : List Json) : PRes
  | fields (kvs : List (String × Json)) : PRes

/-- Fuel-based recursive-descent parser for JSON. -/
def parseJ : ℕ → PMode → List Char → Option (PRes × List Char)
  | 0, _, _ => none
  | Nat.succ fuel, PMode.value, cs0 =>
    (match dropWs cs0 with
     | [] => none
     | '{' :: r =>
       (match parseJ fuel PMode.objItems r with
        | some (PRes.fields kvs, cs2) => some (PRes.v (Json.obj kvs), cs2)
        | _ => none)
     | '[' :: r =>
       (match parseJ fuel PMode.arrItems r with
        | some (PRes.items xs, cs2) => some (PRes.v (Json.arr xs), cs2)
        | _ => none)
     | '"' :: r =>
       (match parseStrAux [] r with
        | some (sc, cs2) => some (PRes.v (Json.str (String.mk sc)), cs2)
        | none => none)
     | 't' :: 'r' :: 'u' :: 'e' :: r => some (PRes.v (Json.bool true), r)
     | 'f' :: 'a' :: 'l' :: 's' :: 'e' :: r => some (PRes.v (Json.bool false), r)
     | 'n' :: 'u' :: 'l' :: 'l' :: r => some (PRes.v Json.null, r)
     | c :: r =>
       (match parseNumber (c :: r) with
        | some (q, cs2) => some (PRes.v (Json.num q), cs2)
        | none => none))
  | Nat.succ fuel, PMode.arrItems, cs0 =>
    (match dropWs cs0 with
     | ']' :: r => some (PRes.items [], r)
     | cs1 => parseJ fuel PMode.arrRest cs1)
  | Nat.succ fuel, PMode.arrRest, cs0 =>
    (match parseJ fuel PMode.value cs0 with
     | some (PRes.v j, cs1) =>
       (match dropWs cs1 with
        | ',' :: r =>
          (match parseJ fuel PMode.arrRest r with
           | some (PRes.items xs, cs2) => some (PRes.items (j :: xs), cs2)
           | _ => none)
        | ']' :: r => some (PRes.items [j], r)
        | _ => none)
     | _ => none)
  | Nat.succ fuel, PMode.objItems, cs0 =>
    (match dropWs cs0 with
     | '}' :: r => some (PRes.fields [], r)
     | cs1 => parseJ fuel PMode.objRest cs1)
  | Nat.succ fuel, PMode.objRest, cs0 =>
    (match dropWs cs0 with
     | '"' :: r =>
       (match parseStrAux [] r with
        | some (kc, cs1) =>
          (match dropWs cs1 with
           | ':' :: r2 =>
             (match parseJ fuel PMode.value r2 with
              | some (PRes.v v, cs2) =>
                (match dropWs cs2 with
                 | ',' :: r3 =>
                   (match parseJ fuel PMode.objRest r3 with
                    | some (PRes.fields kvs, cs3) =>
                      some (PRes.fields (consKV (String.mk kc) v kvs), cs3)
                    | _ => none)
                 | '}' :: r3 => some (PRes.fields [(String.mk kc, v)], r3)
                 | _ => none)
              | _ => none)
           | _ => none)
        | none => none)
     | _ => none)

/-- Model of Python `json.loads`: parse one JSON value and require that only
whitespace remains (otherwise Python raises the "Extra data" decode error).
`none` models `json.JSONDecodeError`.  The fuel `3 * length + 16` dominates
the recursion depth of any parse of the input. -/
def jsonParse (cs : List Char) : Option Json :=
  match parseJ (3 * cs.length + 16) PMode.value cs with
  | some (PRes.v j, rest) => if (dropWs rest).isEmpty then some j else none
  | _ => none

/-! Embedding of `ConstructionSafetyAnalyzer._parse_response` and its helper
response builders from `src/utils/gemini_vision.py`. -/

/-- Model of the fence-stripping prelude of `_parse_response` (lines 249-262):
strip whitespace, drop a leading ` ```json ` or ` ``` ` marker, drop a
trailing ` ``` ` marker, then strip stray backticks and whitespace. -/
def stripFences (cs0 : List Char) : List Char :=
  let c1 := pyStrip cs0
  let c2 :=
    if startsWithL "```json".toList c1 then pyStrip (c1.drop 7)
    else if startsWithL "```".toList c1 then pyStrip (c1.drop 3)
    else c1
  let c3 :=
    if endsWithL "```".toList c2 then pyStrip (c2.take (c2.length - 3))
    else c2
  pyStrip (stripBy (fun c => c == '`') c3)

/-- The `required_fields` list of `_parse_response` (lines 271-275).  Note that
it has nine entries: `estimated_compliance_cost` and
`potential_fine_if_inspected` are not in it. -/
def requiredFields : List String :=
  ["total_workers", "workers_compliant", "workers_non_compliant",
   "critical_violations", "warnings", "compliant_items",
   "overall_compliance_score", "risk_assessment", "immediate_actions"]

/-- Model of `_get_default_value` (lines 305-320); `Json.null` models the
`defaults.get(field, None)` fallback. -/
def get_default_value (f : String) : Json :=
  if f == "total_workers" then Json.num 0
  else if f == "workers_compliant" then Json.num 0
  else if f == "workers_non_compliant" then Json.num 0
  else if f == "critical_violations" then Json.arr []
  else if f == "warnings" then Json.arr []
  else if f == "compliant_items" then Json.arr []
  else if f == "overall_compliance_score" then Json.num 50
  else if f == "risk_assessment" then Json.str "MEDIUM"
  else if f == "immediate_actions" then Json.arr [Json.str "Unable to analyze - please retry"]
  else if f == "estimated_compliance_cost" then Json.str "₹0"
  else if f == "potential_fine_if_inspected" then Json.str "₹0"
  else Json.null

/-- Model of `_get_default_response` (lines 322-342). -/
def default_response : Json :=
  Json.obj
    [("total_workers", Json.num 0),
     ("workers_compliant", Json.num 0),
     ("workers_non_compliant", Json.num 0),
     ("critical_violations", Json.arr []),
     ("warnings", Json.arr
       [Json.obj
         [("violation", Json.str "Unable to analyze image completely"),
          ("location", Json.str "General"),
          ("bis_code", Json.str "N/A"),
          ("risk_level", Json.str "MEDIUM"),
          ("recommendation", Json.str "Please try again with a clearer image")]]),
     ("compliant_items", Json.arr []),
     ("overall_compliance_score", Json.num 50),
     ("risk_assessment", Json.str "MEDIUM"),
     ("immediate_actions", Json.arr [Json.str "Retry analysis with better image quality"]),
     ("estimated_compliance_cost", Json.str "₹0"),
     ("potential_fine_if_inspected", Json.str "₹0")]

/-- Is `k` a key of the association list? (Python `field in dict_result`.) -/
def hasKey (kvs : List (String × Json)) (k : String) : Bool :=
  kvs.any (fun p => p.1 == k)

/-- First value bound to `k`. -/
def lookupKV (kvs : List (String × Json)) (k : String) : Option Json :=
  match kvs with
  | [] => none
  | (k2, v) :: rest => if k2 == k then some v else lookupKV rest k

/-- Field access on a JSON object. -/
def jGet (j : Json) (k : String) : Option Json :=
  match j with
  | Json.obj kvs => lookupKV kvs k
  | _ => none

/-- Message of the `TypeError` Python raises for `field not in result` when
`result` is not iterable (the actual message also names the offending type). -/
def typeErrorMsg : String := "argument of type is not iterable"

/-- Message of the `TypeError` Python raises for `result[field] = v` when
`result` does not support item assignment. -/
def setItemErrorMsg : String := "object does not support item assignment"

/-- Python `field not in result` for a `json.loads` result: membership on
dicts and lists, substring test on strings, `TypeError` otherwise. -/
def pyContains (j : Json) (f : String) : Except String Bool :=
  match j with
  | Json.obj kvs => Except.ok (hasKey kvs f)
  | Json.arr xs => Except.ok (xs.any (fun x =>
      match x with
      | Json.str s => s == f
      | _ => false))
  | Json.str s => Except.ok (hasSub f.toList s.toList)
  | _ => Except.error typeErrorMsg

/-- Python `result[field] = v`: appends a new key to a dict (the back-fill
loop only assigns keys that are absent), `TypeError` otherwise. -/
def pySetItem (j : Json) (f : String) (v : Json) : Except String Json :=
  match j with
  | Json.obj kvs => Except.ok (Json.obj (kvs ++ [(f, v)]))
  | _ => Except.error setItemErrorMsg

/-- The back-fill loop of `_parse_response` (lines 277-279):
`for field in required_fields: if field not in result: result[field] = default`.
An uncaught `TypeError` is modelled by `Except.error`. -/
def backfill : List String → Json → Except String Json
  | [], j => Except.ok j
  | f :: rest, j =>
    match pyContains j f with
    | Except.error e => Except.error e
    | Except.ok true => backfill rest j
    | Except.ok false =>
      match pySetItem j f (get_default_value f) with
      | Except.error e => Except.error e
      | Except.ok j2 => backfill rest j2

/-- Pure description of what `backfill` does to an object's member list:
append the default for each required field not already present. -/
def backfillList : List String → List (String × Json) → List (String × Json)
  | [], kvs => kvs
  | f :: rest, kvs =>
    if hasKey kvs f then backfillList rest kvs
    else backfillList rest (kvs ++ [(f, get_default_value f)])

/-- Number of occurrences of a character (Python `str.count` for a single
character). -/
def countChar (cs : List Char) (c : Char) : ℕ := cs.count c

/-- Model of `_parse_response` (lines 237-303).  The direct parse runs on the
fence-stripped text and back-fills the nine required fields; on a
`JSONDecodeError` the repair heuristic appends the missing closing braces to
the RAW text (the Python code uses `response_text`, not the stripped
`cleaned_text`, in the repair branch) and, if that parses, returns the result
without any back-fill; otherwise the default response is returned.
`Except.error` models an uncaught `TypeError` escaping the call. -/
def parse_response (text : List Char) : Except String Json :=
  match jsonParse (stripFences text) with
  | some result => backfill requiredFields result
  | none =>
    if countChar text '}' < countChar text '{' then
      match jsonParse (text ++ List.replicate (countChar text '{' - countChar text '}') '}') with
      | some result => Except.ok result
      | none => Except.ok default_response
    else Except.ok default_response

/-! Embedding of the retry loop of `analyze_image` (lines 52-148 of
`src/utils/gemini_vision.py`).  Everything one attempt does before reaching
`_parse_response` (loading the image, calling the model, extracting the
response text, the blocked-response and too-short checks) is abstracted by an
oracle giving, per attempt index, either the extracted response text or the
message of the exception raised. -/

/-- Outcome of one attempt of `analyze_image` up to the `_parse_response`
call: either the extracted `response_text`, or the message of the exception
raised before parsing (blocked response, short response, network failure...). -/
inductive AttemptOutcome where
  | text (s : List Char) : AttemptOutcome
  | raised (msg : String) : AttemptOutcome

/-- Model of `_get_error_response` (lines 344-365). -/
def error_response (error_message : String) : Json :=
  Json.obj
    [("total_workers", Json.num 0),
     ("workers_compliant", Json.num 0),
     ("workers_non_compliant", Json.num 0),
     ("critical_violations", Json.arr []),
     ("warnings", Json.arr
       [Json.obj
         [("violation", Json.str ("Analysis error: " ++ error_message)),
          ("location", Json.str "System"),
          ("bis_code", Json.str "ERROR"),
          ("risk_level", Json.str "HIGH"),
          ("confidence", Json.num 100),
          ("recommendation", Json.str "Please check API key and try again")]]),
     ("compliant_items", Json.arr []),
     ("overall_compliance_score", Json.num 0),
     ("risk_assessment", Json.str "UNKNOWN"),
     ("immediate_actions", Json.arr [Json.str "Fix analysis error and retry"]),
     ("estimated_compliance_cost", Json.str "₹0"),
     ("potential_fine_if_inspected", Json.str "₹0")]

/-- Model of `_get_timeout_response` (lines 367-392). -/
def timeout_response : Json :=
  Json.obj
    [("total_workers", Json.num 0),
     ("workers_compliant", Json.num 0),
     ("workers_non_compliant", Json.num 0),
     ("critical_violations", Json.arr []),
     ("warnings", Json.arr
       [Json.obj
         [("violation", Json.str "Request timed out - The AI model took too long to respond"),
          ("location", Json.str "System"),
          ("bis_code", Json.str "TIMEOUT"),
          ("risk_level", Json.str "MEDIUM"),
          ("confidence", Json.num 100),
          ("recommendation", Json.str
            "Try uploading a smaller image or retry in a few moments. Large images may take longer to analyze.")]]),
     ("compliant_items", Json.arr []),
     ("overall_compliance_score", Json.num 0),
     ("risk_assessment", Json.str "UNKNOWN"),
     ("immediate_actions", Json.arr
       [Json.str "Wait 10-30 seconds and try again",
        Json.str "Upload a smaller/lower resolution image",
        Json.str "Check your internet connection"]),
     ("estimated_compliance_cost", Json.str "₹0"),
     ("potential_fine_if_inspected", Json.str "₹0")]

/-- The timeout classification of the except-branch (line 134):
`'504' in error_msg or 'timeout' in error_msg.lower()`. -/
def isTimeoutMsg (msg : String) : Bool :=
  hasSub "504".toList msg.toList || hasSub "timeout".toList (msg.toList.map Char.toLower)

/-- Result of one whole attempt: the oracle outcome composed with
`_parse_response` (whose uncaught `TypeError` is caught by the same
`except Exception` clause and classified by its message). -/
def attemptResult (oracle : ℕ → AttemptOutcome) (i : ℕ) : Except String Json :=
  match oracle i with
  | AttemptOutcome.raised m => Except.error m
  | AttemptOutcome.text s => parse_response s

/-- The `for attempt in range(max_retries)` loop of `analyze_image`: returns
the resulting record together with the list of back-off sleeps performed (in
seconds, `wait_time = (attempt + 1) * 2`).  A non-timeout failure returns the
error response with no retry; a timeout failure retries while attempts
remain, and the loop's trailing `return self._get_timeout_response()` covers
both the in-loop exhaustion branch and the fall-through. -/
def analyzeGo (oracle : ℕ → AttemptOutcome) (maxR : ℕ) : ℕ → ℕ → Json × List ℕ
  | _, 0 => (timeout_response, [])
  | attempt, Nat.succ rem =>
    match attemptResult oracle attempt with
    | Except.ok j => (j, [])
    | Except.error msg =>
      if isTimeoutMsg msg then
        if attempt < maxR - 1 then
          let rest := analyzeGo oracle maxR (attempt + 1) rem
          (rest.1, (attempt + 1) * 2 :: rest.2)
        else (timeout_response, [])
      else (error_response msg, [])

/-- Model of `analyze_image` with the default budget `max_retries = 3`. -/
def analyze_image (oracle : ℕ → AttemptOutcome) : Json × List ℕ :=
  analyzeGo oracle 3 0 3

/-! Embedding of `src/utils/risk_scoring.py`.  The analysis dictionaries
consumed there are modelled by typed records; a field holding `none` models a
dictionary in which the corresponding key is absent (every `.get` of the
Python code is translated to `Option.getD` with the same default). -/

/-- A violation or warning entry as read by `calculate_risk_score` and
`prioritize_actions` (each field a `.get` with a default, so each is optional). -/
structure Violation where
  violation : Option String
  location : Option String
  bis_code : Option String
  risk_level : Option String
  confidence : Option ℤ
  recommendation : Option String

/-- An analysis-result dictionary as consumed by the risk-scoring module. -/
structure AnalysisRecord where
  total_workers : Option ℤ
  workers_compliant : Option ℤ
  workers_non_compliant : Option ℤ
  critical_violations : Option (List Violation)
  warnings : Option (List Violation)
  compliant_items : Option (List String)
  overall_compliance_score : Option ℤ
  risk_assessment : Option String
  immediate_actions : Option (List String)
  estimated_compliance_cost : Option String
  potential_fine_if_inspected : Option String

/-- The dictionary returned by `calculate_risk_score`. -/
structure RiskAssessmentR where
  risk_score : ℤ
  risk_level : String
  risk_color : String
  recommendation : String
  action_urgency : String
  critical_count : ℕ
  warning_count : ℕ
  compliance_percentage : ℤ

/-- Python `int()` on a float: truncation toward zero. -/
def pyInt (q : ℚ) : ℤ := if q < 0 then ⌈q⌉ else ⌊q⌋

/-- Points one warning adds to the base score (lines 34-39):
`risk_level = warning.get('risk_level', 'MEDIUM')`, +10 for HIGH, +5 for
MEDIUM, 0 otherwise. -/
def warningPoints (w : Violation) : ℤ :=
  let rl := w.risk_level.getD "MEDIUM"
  if rl = "HIGH" then 10 else if rl = "MEDIUM" then 5 else 0

def recCRITICAL : String :=
  "🚨 CRITICAL RISK: Site operations must be halted immediately. Multiple life-threatening violations detected. Emergency safety review required before resuming work."

def recHIGH : String :=
  "⚠️ HIGH RISK: Serious safety violations present. Immediate corrective action required within 24 hours. Site supervisor must address all critical issues before next shift."

def recMEDIUM : String :=
  "⚡ MEDIUM RISK: Several safety improvements needed. Address violations within 48 hours. Schedule safety training and equipment upgrades."

def recLOW : String :=
  "✅ LOW RISK: Site shows good safety compliance. Continue monitoring and maintain current safety standards. Address minor warnings during routine inspections."

/-- The pre-mapped float score before the weighting of `score2` by the
worker ratio — lines 21-52 of `calculate_risk_score` as one expression. -/
def riskScoreRaw (r : AnalysisRecord) : ℚ :=
  let critical_violations := r.critical_violations.getD []
  let warnings := r.warnings.getD []
  let compliance_score := r.overall_compliance_score.getD 100
  let base : ℤ := (critical_violations.length : ℤ) * 20 + (warnings.map warningPoints).sum
  let compliance_multiplier : ℚ := (100 - (compliance_score : ℚ)) / 100
  let score1 : ℚ := (base : ℚ) * (1 + compliance_multiplier)
  let total_workers := r.total_workers.getD 0
  let non_compliant_workers := r.workers_non_compliant.getD 0
  if 0 < total_workers then
    score1 + ((non_compliant_workers : ℚ) / (total_workers : ℚ)) * 15
  else score1

/-- Line 55 of `calculate_risk_score`:
`risk_score = min(int(risk_score), 100)`. -/
def riskScoreVal (r : AnalysisRecord) : ℤ := min (pyInt (riskScoreRaw r)) 100

/-- Model of `calculate_risk_score` (lines 9-104): 20 points per critical
violation plus the warning points, multiplied by
`1 + (100 - compliance_score)/100`, plus `(non_compliant/total)*15` when
`total_workers > 0`; the float score is truncated by `int()` and capped above
by `min(..., 100)`; the level/urgency/recommendation are chosen by the
first-match threshold chain. -/
def calculate_risk_score (r : AnalysisRecord) : RiskAssessmentR :=
  let risk_score := riskScoreVal r
  let nc := (r.critical_violations.getD []).length
  let nw := (r.warnings.getD []).length
  let cp := r.overall_compliance_score.getD 100
  if 75 ≤ risk_score then
    ⟨risk_score, "CRITICAL", "#B71C1C", recCRITICAL, "IMMEDIATE", nc, nw, cp⟩
  else if 50 ≤ risk_score then
    ⟨risk_score, "HIGH", "#E53935", recHIGH, "24_HOURS", nc, nw, cp⟩
  else if 25 ≤ risk_score then
    ⟨risk_score, "MEDIUM", "#FB8C00", recMEDIUM, "48_HOURS", nc, nw, cp⟩
  else
    ⟨risk_score, "LOW", "#43A047", recLOW, "WEEKLY", nc, nw, cp⟩

/-- An entry of the list returned by `prioritize_actions`. -/
structure ActionItem where
  priority : ℕ
  urgency : String
  action : String
  violation : String
  location : String
  bis_code : String
  estimated_time : String
  estimated_cost : String

/-- The critical-violation item built at lines 123-132. -/
def critAction (p : ℕ) (v : Violation) : ActionItem :=
  ⟨p, "IMMEDIATE", v.recommendation.getD "Address violation", v.violation.getD "Unknown",
   v.location.getD "Unknown", v.bis_code.getD "N/A", "30 minutes", "Varies"⟩

/-- The HIGH-warning item built at lines 140-149. -/
def highAction (p : ℕ) (w : Violation) : ActionItem :=
  ⟨p, "HIGH", w.recommendation.getD "Address warning", w.violation.getD "Unknown",
   w.location.getD "Unknown", w.bis_code.getD "N/A", "1-2 hours", "Moderate"⟩

/-- The MEDIUM-warning item built at lines 157-166. -/
def medAction (p : ℕ) (w : Violation) : ActionItem :=
  ⟨p, "MEDIUM", w.recommendation.getD "Address warning", w.violation.getD "Unknown",
   w.location.getD "Unknown", w.bis_code.getD "N/A", "2-4 hours", "Low-Moderate"⟩

/-- One `for` loop of `prioritize_actions`: emit one item per violation,
incrementing the priority counter; returns the items and the next priority. -/
def emit (mk : ℕ → Violation → ActionItem) : ℕ → List Violation → List ActionItem × ℕ
  | p, [] => ([], p)
  | p, v :: vs =>
    let rest := emit mk (p + 1) vs
    (mk p v :: rest.1, rest.2)

/-- Model of `prioritize_actions` (lines 107-169): critical violations first,
then warnings with `risk_level == 'HIGH'`, then warnings with
`risk_level == 'MEDIUM'`, with one running priority counter starting at 1. -/
def prioritize_actions (r : AnalysisRecord) : List ActionItem :=
  let cvs := r.critical_violations.getD []
  let ws := r.warnings.getD []
  let high_warnings := ws.filter (fun w => w.risk_level == some "HIGH")
  let medium_warnings := ws.filter (fun w => w.risk_level == some "MEDIUM")
  let e1 := emit critAction 1 cvs
  let e2 := emit highAction e1.2 high_warnings
  let e3 := emit medAction e2.2 medium_warnings
  e1.1 ++ e2.1 ++ e3.1

/-! Embedding of `calculate_financial_impact` (lines 172-215 of
`src/utils/risk_scoring.py`). -/

/-- The lexical components of a Python float literal:
sign, integer-part value, fraction value and length, exponent sign and value. -/
structure FloatParts where
  neg : Bool
  ival : ℕ
  fval : ℕ
  flen : ℕ
  eneg : Bool
  e : ℕ

/-- Lexer for the strings accepted by Python `float()` (the decimal-literal
subset: optional surrounding whitespace, optional sign, digits with optional
fractional part and optional exponent; the special forms `inf`/`nan` and
digit-group underscores are not modelled — no claim depends on them).
`none` models `float()` raising `ValueError`. -/
def floatLex (cs0 : List Char) : Option FloatParts :=
  let cs := stripBy isPyWsChar cs0
  let sn : Bool × List Char :=
    match cs with
    | '-' :: r => (true, r)
    | '+' :: r => (false, r)
    | _ => (false, cs)
  let ids := sn.2.takeWhile Char.isDigit
  let r1 := sn.2.dropWhile Char.isDigit
  let fr : ℕ × ℕ × List Char :=
    match r1 with
    | '.' :: r2 => (natOfDigits (r2.takeWhile Char.isDigit),
                    (r2.takeWhile Char.isDigit).length,
                    r2.dropWhile Char.isDigit)
    | _ => (0, 0, r1)
  if ids.isEmpty && (match r1 with | '.' :: _ => fr.2.1 == 0 | _ => true) then none
  else
    match fr.2.2 with
    | [] => some ⟨sn.1, natOfDigits ids, fr.1, fr.2.1, false, 0⟩
    | 'e' :: r3 | 'E' :: r3 =>
      let esn : Bool × List Char :=
        match r3 with
        | '-' :: r4 => (true, r4)
        | '+' :: r4 => (false, r4)
        | _ => (false, r3)
      let eds := esn.2.takeWhile Char.isDigit
      if eds.isEmpty then none
      else if (esn.2.dropWhile Char.isDigit).isEmpty then
        some ⟨sn.1, natOfDigits ids, fr.1, fr.2.1, esn.1, natOfDigits eds⟩
      else none
    | _ => none

/-- Numeric value of a lexed float literal. -/
def pyFloatVal (p : FloatParts) : ℚ :=
  (if p.neg then -1 else 1) *
    (((p.ival : ℚ) + (p.fval : ℚ) / (10 : ℚ) ^ p.flen) *
      (if p.eneg then 1 / (10 : ℚ) ^ p.e else (10 : ℚ) ^ p.e))

/-- Python `str.replace('lakh', '')` on an already lowercased string:
remove every (non-overlapping, left-to-right) occurrence of `lakh`. -/
def removeLakh : List Char → List Char
  | 'l' :: 'a' :: 'k' :: 'h' :: rest => removeLakh rest
  | c :: rest => c :: removeLakh rest
  | [] => []

/-- The discrete part of `parse_rupee` (lines 188-197): remove `₹` and `,`,
strip, detect `lakh` in the lowercased text (removing it and lowercasing
before the numeral parse when present), and lex the remaining float literal.
Returns the lexed literal (`none` when `float()` would raise) and whether the
lakh branch was taken. -/
def rupeeParts (s : String) : Option FloatParts × Bool :=
  let cleaned := pyStrip ((s.toList.filter (fun c => !(c == '₹'))).filter (fun c => !(c == ',')))
  if hasSub "lakh".toList (cleaned.map Char.toLower) then
    (floatLex (pyStrip (removeLakh (cleaned.map Char.toLower))), true)
  else
    (floatLex cleaned, false)

/-- Model of `parse_rupee`: the bare `except` clause degrades any parse
failure to 0; a successful lakh-branch parse is multiplied by 100000. -/
def parse_rupee (s : String) : ℚ :=
  match rupeeParts s with
  | (some p, true) => pyFloatVal p * 100000
  | (some p, false) => pyFloatVal p
  | (none, _) => 0

/-- The dictionary returned by `calculate_financial_impact`. -/
structure FinancialImpactR where
  potential_fine : ℚ
  compliance_cost : ℚ
  potential_savings : ℚ
  roi_percentage : ℚ
  financial_risk_level : String

/-- Model of `calculate_financial_impact` (lines 172-215). -/
def calculate_financial_impact (r : AnalysisRecord) : FinancialImpactR :=
  let potential_fine := r.potential_fine_if_inspected.getD "₹0"
  let compliance_cost := r.estimated_compliance_cost.getD "₹0"
  let fine_amount := parse_rupee potential_fine
  let cost_amount := parse_rupee compliance_cost
  let savings := fine_amount - cost_amount
  let roi_percentage := if 0 < cost_amount then (savings / cost_amount) * 100 else 0
  ⟨fine_amount, cost_amount, savings, roi_percentage,
   if 100000 < fine_amount then "HIGH" else if 50000 < fine_amount then "MEDIUM" else "LOW"⟩

/-! Spec-side model for the refinement comparison of claim C1. -/

/-- The risk-score algorithm as the spec words it (section 4.4): base points,
compliance score clamped to [0,100] before the multiplier, worker-ratio term,
and finally clamp(round(score), 0, 100) — round to nearest (halves up; at the
input of the claim the score is 95.5, where Python's round-half-to-even also
gives 96), then clamp.  This definition follows the spec's words, for
comparison with `calculate_risk_score`, which follows the code. -/
def riskScoreSpec (r : AnalysisRecord) : ℤ :=
  let critical_violations := r.critical_violations.getD []
  let warnings := r.warnings.getD []
  let cs0 := r.overall_compliance_score.getD 100
  let cs := max 0 (min cs0 100)
  let base : ℤ := (critical_violations.length : ℤ) * 20 + (warnings.map warningPoints).sum
  let multiplier : ℚ := 1 + (100 - (cs : ℚ)) / 100
  let score1 : ℚ := (base : ℚ) * multiplier
  let total_workers := r.total_workers.getD 0
  let non_compliant_workers := r.workers_non_compliant.getD 0
  let score2 : ℚ :=
    if 0 < total_workers then
      score1 + ((non_compliant_workers : ℚ) / (total_workers : ℚ)) * 15
    else score1
  max 0 (min ⌊score2 + 1 / 2⌋ 100)

/-! Concrete inputs used by the theorems below. -/

/-- The sample record from the self-test block of `src/utils/risk_scoring.py`
(lines 254-289): 10 workers of which 7 non-compliant, two critical
violations, one HIGH warning, compliance score 30. -/
def sampleRecord : AnalysisRecord :=
  ⟨some 10, some 3, some 7,
   some
     [⟨some "Workers on 3rd floor without safety harness", some "Left scaffolding",
       some "IS_3696_1966", some "CRITICAL", none,
       some "Immediately provide and enforce safety harness usage"⟩,
      ⟨some "No safety net below work platform at 4m height", some "Center area",
       some "IS_4081_1996", some "CRITICAL", none,
       some "Install safety net immediately"⟩],
   some
     [⟨some "5 workers without safety helmets", some "General site",
       some "IS_2925_1984", some "HIGH", none,
       some "Provide helmets and enforce usage"⟩],
   some ["Fire extinguisher visible", "Good lighting"],
   some 30, some "CRITICAL",
   some ["Stop work", "Install safety equipment"],
   some "₹35,000", some "₹5,00,000"⟩

/-- A record whose single warning has no `risk_level` key: the score loop
defaults it to MEDIUM while the action plan drops it. -/
def noSevRecord : AnalysisRecord :=
  ⟨none, none, none, none,
   some [⟨some "Helmet missing", some "Gate", some "IS_2925_1984", none, none,
          some "Provide helmet"⟩],
   none, some 100, none, none, none, none⟩

/-- A record carrying the financial figures of the spec's ROI example:
fine 250000, compliance cost 75000. -/
def finRecord : AnalysisRecord :=
  ⟨none, none, none, none, none, none, none, none, none,
   some "₹75,000", some "₹2,50,000"⟩

/-! Helper lemmas about the risk-scoring embedding. -/

theorem warningPoints_nonneg (w : Violation) : 0 ≤ warningPoints w := by
  simp only [warningPoints]
  split_ifs <;> norm_num

theorem pyInt_nonneg (q : ℚ) (h : 0 ≤ q) : 0 ≤ pyInt q := by
  simp only [pyInt, if_neg (not_lt.mpr h)]
  exact Int.le_floor.mpr (by exact_mod_cast h)

theorem riskScoreRaw_nonneg (r : AnalysisRecord)
    (h2 : r.overall_compliance_score.getD 100 ≤ 100)
    (h3 : 0 ≤ r.workers_non_compliant.getD 0) :
    0 ≤ riskScoreRaw r := by
  have hbase : (0 : ℤ) ≤ ((r.critical_violations.getD []).length : ℤ) * 20 +
      ((r.warnings.getD []).map warningPoints).sum := by
    have hs : 0 ≤ ((r.warnings.getD []).map warningPoints).sum := by
      refine List.sum_nonneg ?_
      intro x hx
      obtain ⟨w, _, rfl⟩ := List.mem_map.mp hx
      exact warningPoints_nonneg w
    positivity
  have hcs : ((r.overall_compliance_score.getD 100 : ℤ) : ℚ) ≤ 100 := by exact_mod_cast h2
  simp only [riskScoreRaw]
  split_ifs with htw
  · refine add_nonneg (mul_nonneg (by exact_mod_cast hbase) (by linarith))
      (mul_nonneg (div_nonneg (by exact_mod_cast h3) (by exact_mod_cast htw.le)) (by norm_num))
  · exact mul_nonneg (by exact_mod_cast hbase) (by linarith)

theorem riskScoreVal_nonneg (r : AnalysisRecord)
    (h2 : r.overall_compliance_score.getD 100 ≤ 100)
    (h3 : 0 ≤ r.workers_non_compliant.getD 0) :
    0 ≤ riskScoreVal r :=
  le_min (pyInt_nonneg _ (riskScoreRaw_nonneg r h2 h3)) (by norm_num)

theorem riskScoreVal_le100 (r : AnalysisRecord) : riskScoreVal r ≤ 100 :=
  min_le_right _ _

theorem risk_score_eq (r : AnalysisRecord) :
    (calculate_risk_score r).risk_score = riskScoreVal r := by
  simp only [calculate_risk_score]
  split_ifs <;> rfl

theorem warning_count_eq (r : AnalysisRecord) :
    (calculate_risk_score r).warning_count = (r.warnings.getD []).length := by
  simp only [calculate_risk_score]
  split_ifs <;> rfl

theorem risk_level_eq (r : AnalysisRecord) :
    (calculate_risk_score r).risk_level =
      (if 75 ≤ riskScoreVal r then "CRITICAL"
       else if 50 ≤ riskScoreVal r then "HIGH"
       else if 25 ≤ riskScoreVal r then "MEDIUM"
       else "LOW") := by
  simp only [calculate_risk_score]
  split_ifs <;> rfl

theorem action_urgency_eq (r : AnalysisRecord) :
    (calculate_risk_score r).action_urgency =
      (if 75 ≤ riskScoreVal r then "IMMEDIATE"
       else if 50 ≤ riskScoreVal r then "24_HOURS"
       else if 25 ≤ riskScoreVal r then "48_HOURS"
       else "WEEKLY") := by
  simp only [calculate_risk_score]
  split_ifs <;> rfl

/-- C1: at the spec's regression input (the sample record of the module's
self-test: 10 workers, 7 non-compliant, two critical violations, one HIGH
warning, compliance 30, float score 95.5) the code truncates with `int()` and
yields risk_score 95, while the claim's round-then-clamp algorithm
(`riskScoreSpec`, modelled from the spec's six steps) yields 96. -/
theorem c1_truncation_diverges_from_round_then_clamp :
    (calculate_risk_score sampleRecord).risk_score = 95 ∧
    riskScoreSpec sampleRecord = 96 := by
  constructor
  · rw [risk_score_eq]
    simp only [riskScoreVal, riskScoreRaw, sampleRecord, warningPoints, Option.getD,
      List.map, List.sum_cons, List.sum_nil, List.length]
    norm_num [pyInt, Int.floor_eq_iff]
  · simp only [riskScoreSpec, sampleRecord, warningPoints, Option.getD,
      List.map, List.sum_cons, List.sum_nil, List.length]
    norm_num [Int.floor_eq_iff]

/-- C3: under the data-model invariants (compliance score in [0,100] and
non-negative worker counts) the risk score is in [0,100] and the returned
level and urgency are exactly the first-match threshold mapping on the
returned risk score. -/
theorem c3_score_bounds_and_threshold_mapping (r : AnalysisRecord)
    (h1 : 0 ≤ r.overall_compliance_score.getD 100)
    (h2 : r.overall_compliance_score.getD 100 ≤ 100)
    (h3 : 0 ≤ r.workers_non_compliant.getD 0)
    (h4 : 0 ≤ r.total_workers.getD 0) :
    (0 ≤ (calculate_risk_score r).risk_score ∧ (calculate_risk_score r).risk_score ≤ 100) ∧
    ((calculate_risk_score r).risk_level = "CRITICAL" ↔
      75 ≤ (calculate_risk_score r).risk_score) ∧
    ((calculate_risk_score r).action_urgency = "IMMEDIATE" ↔
      75 ≤ (calculate_risk_score r).risk_score) ∧
    ((calculate_risk_score r).risk_level = "HIGH" ↔
      (50 ≤ (calculate_risk_score r).risk_score ∧ (calculate_risk_score r).risk_score < 75)) ∧
    ((calculate_risk_score r).action_urgency = "24_HOURS" ↔
      (50 ≤ (calculate_risk_score r).risk_score ∧ (calculate_risk_score r).risk_score < 75)) ∧
    ((calculate_risk_score r).risk_level = "MEDIUM" ↔
      (25 ≤ (calculate_risk_score r).risk_score ∧ (calculate_risk_score r).risk_score < 50)) ∧
    ((calculate_risk_score r).action_urgency = "48_HOURS" ↔
      (25 ≤ (calculate_risk_score r).risk_score ∧ (calculate_risk_score r).risk_score < 50)) ∧
    ((calculate_risk_score r).risk_level = "LOW" ↔
      (calculate_risk_score r).risk_score < 25) ∧
    ((calculate_risk_score r).action_urgency = "WEEKLY" ↔
      (calculate_risk_score r).risk_score < 25) := by
  have hx0 : 0 ≤ riskScoreVal r := riskScoreVal_nonneg r h2 h3
  have hx1 : riskScoreVal r ≤ 100 := riskScoreVal_le100 r
  rw [risk_score_eq, risk_level_eq, action_urgency_eq]
  by_cases h75 : 75 ≤ riskScoreVal r
  · rw [if_pos h75, if_pos h75]
    exact ⟨⟨hx0, hx1⟩,
      iff_of_true rfl h75, iff_of_true rfl h75,
      iff_of_false (by decide) (by omega), iff_of_false (by decide) (by omega),
      iff_of_false (by decide) (by omega), iff_of_false (by decide) (by omega),
      iff_of_false (by decide) (by omega), iff_of_false (by decide) (by omega)⟩
  · rw [if_neg h75, if_neg h75]
    by_cases h50 : 50 ≤ riskScoreVal r
    · rw [if_pos h50, if_pos h50]
      exact ⟨⟨hx0, hx1⟩,
        iff_of_false (by decide) (by omega), iff_of_false (by decide) (by omega),
        iff_of_true rfl (by omega), iff_of_true rfl (by omega),
        iff_of_false (by decide) (by omega), iff_of_false (by decide) (by omega),
        iff_of_false (by decide) (by omega), iff_of_false (by decide) (by omega)⟩
    · rw [if_neg h50, if_neg h50]
      by_cases h25 : 25 ≤ riskScoreVal r
      · rw [if_pos h25, if_pos h25]
        exact ⟨⟨hx0, hx1⟩,
          iff_of_false (by decide) (by omega), iff_of_false (by decide) (by omega),
          iff_of_false (by decide) (by omega), iff_of_false (by decide) (by omega),
          iff_of_true rfl (by omega), iff_of_true rfl (by omega),
          iff_of_false (by decide) (by omega), iff_of_false (by decide) (by omega)⟩
      · rw [if_neg h25, if_neg h25]
        exact ⟨⟨hx0, hx1⟩,
          iff_of_false (by decide) (by omega), iff_of_false (by decide) (by omega),
          iff_of_false (by decide) (by omega), iff_of_false (by decide) (by omega),
          iff_of_false (by decide) (by omega), iff_of_false (by decide) (by omega),
          iff_of_true rfl (by omega), iff_of_true rfl (by omega)⟩

/-- C3 witness: the theorem applied to the sample record, whose compliance
score 30 and counts satisfy the invariants. -/
theorem c3_score_bounds_and_threshold_mapping_witness :
    (0 ≤ (calculate_risk_score sampleRecord).risk_score ∧
      (calculate_risk_score sampleRecord).risk_score ≤ 100) ∧
    ((calculate_risk_score sampleRecord).risk_level = "CRITICAL" ↔
      75 ≤ (calculate_risk_score sampleRecord).risk_score) ∧
    ((calculate_risk_score sampleRecord).action_urgency = "IMMEDIATE" ↔
      75 ≤ (calculate_risk_score sampleRecord).risk_score) ∧
    ((calculate_risk_score sampleRecord).risk_level = "HIGH" ↔
      (50 ≤ (calculate_risk_score sampleRecord).risk_score ∧
        (calculate_risk_score sampleRecord).risk_score < 75)) ∧
    ((calculate_risk_score sampleRecord).action_urgency = "24_HOURS" ↔
      (50 ≤ (calculate_risk_score sampleRecord).risk_score ∧
        (calculate_risk_score sampleRecord).risk_score < 75)) ∧
    ((calculate_risk_score sampleRecord).risk_level = "MEDIUM" ↔
      (25 ≤ (calculate_risk_score sampleRecord).risk_score ∧
        (calculate_risk_score sampleRecord).risk_score < 50)) ∧
    ((calculate_risk_score sampleRecord).action_urgency = "48_HOURS" ↔
      (25 ≤ (calculate_risk_score sampleRecord).risk_score ∧
        (calculate_risk_score sampleRecord).risk_score < 50)) ∧
    ((calculate_risk_score sampleRecord).risk_level = "LOW" ↔
      (calculate_risk_score sampleRecord).risk_score < 25) ∧
    ((calculate_risk_score sampleRecord).action_urgency = "WEEKLY" ↔
      (calculate_risk_score sampleRecord).risk_score < 25) :=
  c3_score_bounds_and_threshold_mapping sampleRecord (by decide) (by decide)
    (by decide) (by decide)

/-! Helper lemmas about `prioritize_actions`. -/

theorem emit_eq (mk : ℕ → Violation → ActionItem) (vs : List Violation) : ∀ p : ℕ,
    emit mk p vs = (List.zipWith mk (List.range' p vs.length) vs, p + vs.length) := by
  induction vs with
  | nil => intro p; simp [emit, List.range']
  | cons v vs ih =>
    intro p
    simp [emit, ih (p + 1), List.range'_succ, Prod.ext_iff]
    omega

theorem zipWith_fst {α β : Type} : ∀ (as : List α) (bs : List β),
    as.length = bs.length → List.zipWith (fun a _ => a) as bs = as := by
  intro as
  induction as with
  | nil => intro bs _; simp
  | cons a as ih =>
    intro bs h
    cases bs with
    | nil => simp at h
    | cons b bs => simpa using ih bs (by simpa using h)

/-- C7: the action plan is exactly the critical violations (urgency
IMMEDIATE, estimated time "30 minutes"), then the HIGH warnings (urgency
HIGH, "1-2 hours"), then the MEDIUM warnings (urgency MEDIUM, "2-4 hours"),
each group in original relative order, with priorities numbered 1..N
consecutively in emission order; `critAction`/`highAction`/`medAction` carry
the recommendation-or-fallback action text. -/
theorem c7_plan_order_and_numbering (r : AnalysisRecord) :
    prioritize_actions r =
      (List.zipWith critAction
        (List.range' 1 (r.critical_violations.getD []).length)
        (r.critical_violations.getD []) ++
      (List.zipWith highAction
        (List.range' (1 + (r.critical_violations.getD []).length)
          ((r.warnings.getD []).filter (fun w => w.risk_level == some "HIGH")).length)
        ((r.warnings.getD []).filter (fun w => w.risk_level == some "HIGH")) ++
      List.zipWith medAction
        (List.range' (1 + (r.critical_violations.getD []).length +
            ((r.warnings.getD []).filter (fun w => w.risk_level == some "HIGH")).length)
          ((r.warnings.getD []).filter (fun w => w.risk_level == some "MEDIUM")).length)
        ((r.warnings.getD []).filter (fun w => w.risk_level == some "MEDIUM")))) ∧
    (prioritize_actions r).map ActionItem.priority =
      List.range' 1 ((r.critical_violations.getD []).length +
        (((r.warnings.getD []).filter (fun w => w.risk_level == some "HIGH")).length +
          ((r.warnings.getD []).filter (fun w => w.risk_level == some "MEDIUM")).length)) := by
  have h1 : prioritize_actions r =
      List.zipWith critAction
        (List.range' 1 (r.critical_violations.getD []).length)
        (r.critical_violations.getD []) ++
      (List.zipWith highAction
        (List.range' (1 + (r.critical_violations.getD []).length)
          ((r.warnings.getD []).filter (fun w => w.risk_level == some "HIGH")).length)
        ((r.warnings.getD []).filter (fun w => w.risk_level == some "HIGH")) ++
      List.zipWith medAction
        (List.range' (1 + (r.critical_violations.getD []).length +
            ((r.warnings.getD []).filter (fun w => w.risk_level == some "HIGH")).length)
          ((r.warnings.getD []).filter (fun w => w.risk_level == some "MEDIUM")).length)
        ((r.warnings.getD []).filter (fun w => w.risk_level == some "MEDIUM"))) := by
    simp [prioritize_actions, emit_eq]
  refine ⟨h1, ?_⟩
  rw [h1]
  simp only [List.map_append, List.map_zipWith, critAction, highAction, medAction]
  rw [zipWith_fst _ _ (by simp), zipWith_fst _ _ (by simp), zipWith_fst _ _ (by simp)]
  rw [List.range'_append_1, List.range'_append_1]
  congr 1
  omega

/-- C10: the two consumers of a record disagree on warnings without a
severity: every warning counts toward `warning_count` and a missing
`risk_level` scores as MEDIUM (5 points), while the action plan keeps only
warnings whose `risk_level` is exactly HIGH or MEDIUM, so the plan length is
|critical| + |HIGH warnings| + |MEDIUM warnings|; on the record with one
severity-less warning the plan is empty although the score counts it. -/
theorem c10_unknown_severity_inconsistency :
    (∀ r : AnalysisRecord, (prioritize_actions r).length =
      (r.critical_violations.getD []).length +
        (((r.warnings.getD []).filter (fun w => w.risk_level == some "HIGH")).length +
          ((r.warnings.getD []).filter (fun w => w.risk_level == some "MEDIUM")).length)) ∧
    (∀ r : AnalysisRecord,
      (calculate_risk_score r).warning_count = (r.warnings.getD []).length) ∧
    (∀ w : Violation, w.risk_level = none → warningPoints w = 5) ∧
    prioritize_actions noSevRecord = [] ∧
    (calculate_risk_score noSevRecord).warning_count = 1 ∧
    (calculate_risk_score noSevRecord).risk_score = 5 := by
  refine ⟨?_, ?_, ?_, ?_, ?_, ?_⟩
  · intro r
    simp [prioritize_actions, emit_eq, Nat.add_assoc]
  · intro r
    exact warning_count_eq r
  · intro w h
    simp [warningPoints, h]
  · rfl
  · rw [warning_count_eq]; rfl
  · rw [risk_score_eq]
    have hs : warningPoints ⟨some "Helmet missing", some "Gate", some "IS_2925_1984",
        none, none, some "Provide helmet"⟩ = 5 := rfl
    simp only [riskScoreVal, riskScoreRaw, noSevRecord, Option.getD,
      List.map, hs, List.sum_cons, List.sum_nil, List.length]
    norm_num [pyInt, Int.floor_eq_iff]

/-- C10 witness: the missing-severity conjunct applied to a concrete
severity-less warning. -/
theorem c10_unknown_severity_inconsistency_witness :
    warningPoints ⟨some "Helmet missing", some "Gate", some "IS_2925_1984",
      none, none, some "Provide helmet"⟩ = 5 :=
  c10_unknown_severity_inconsistency.2.2.1 _ rfl

/-- C8: the currency parser strips the rupee sign and commas and applies the
lakh multiplier ("₹5,00,000" parses to 500000, "₹1.5 lakh" to 150000,
"not a number" degrades to 0, "₹0" to 0); savings are fine minus cost, the
ROI is savings over cost times 100 when the cost is positive and 0 otherwise,
and the financial risk level is HIGH above a fine of 100000, MEDIUM above
50000, LOW otherwise; at fine 250000 and cost 75000 this gives savings
175000 and ROI 700/3 (≈233.33%). -/
theorem c8_financial_estimator :
    parse_rupee "₹5,00,000" = 500000 ∧
    parse_rupee "₹1.5 lakh" = 150000 ∧
    parse_rupee "not a number" = 0 ∧
    parse_rupee "₹0" = 0 ∧
    (∀ r : AnalysisRecord,
      (calculate_financial_impact r).potential_fine =
        parse_rupee (r.potential_fine_if_inspected.getD "₹0") ∧
      (calculate_financial_impact r).compliance_cost =
        parse_rupee (r.estimated_compliance_cost.getD "₹0") ∧
      (calculate_financial_impact r).potential_savings =
        (calculate_financial_impact r).potential_fine -
          (calculate_financial_impact r).compliance_cost ∧
      (calculate_financial_impact r).roi_percentage =
        (if 0 < (calculate_financial_impact r).compliance_cost then
          ((calculate_financial_impact r).potential_savings /
            (calculate_financial_impact r).compliance_cost) * 100
         else 0) ∧
      (calculate_financial_impact r).financial_risk_level =
        (if 100000 < (calculate_financial_impact r).potential_fine then "HIGH"
         else if 50000 < (calculate_financial_impact r).potential_fine then "MEDIUM"
         else "LOW")) ∧
    calculate_financial_impact finRecord = ⟨250000, 75000, 175000, 700 / 3, "HIGH"⟩ := by
  have hp1 : parse_rupee "₹5,00,000" = 500000 := by
    rw [parse_rupee]
    have h : rupeeParts "₹5,00,000" = (some ⟨false, 500000, 0, 0, false, 0⟩, false) := rfl
    rw [h]
    norm_num [pyFloatVal]
  have hp2 : parse_rupee "₹1.5 lakh" = 150000 := by
    rw [parse_rupee]
    have h : rupeeParts "₹1.5 lakh" = (some ⟨false, 1, 5, 1, false, 0⟩, true) := rfl
    rw [h]
    norm_num [pyFloatVal]
  have hp3 : parse_rupee "not a number" = 0 := by
    rw [parse_rupee]
    have h : rupeeParts "not a number" = (none, false) := rfl
    rw [h]
  have hp4 : parse_rupee "₹0" = 0 := by
    rw [parse_rupee]
    have h : rupeeParts "₹0" = (some ⟨false, 0, 0, 0, false, 0⟩, false) := rfl
    rw [h]
    norm_num [pyFloatVal]
  have hfine : parse_rupee "₹2,50,000" = 250000 := by
    rw [parse_rupee]
    have h : rupeeParts "₹2,50,000" = (some ⟨false, 250000, 0, 0, false, 0⟩, false) := rfl
    rw [h]
    norm_num [pyFloatVal]
  have hcost : parse_rupee "₹75,000" = 75000 := by
    rw [parse_rupee]
    have h : rupeeParts "₹75,000" = (some ⟨false, 75000, 0, 0, false, 0⟩, false) := rfl
    rw [h]
    norm_num [pyFloatVal]
  refine ⟨hp1, hp2, hp3, hp4, fun r => ⟨rfl, rfl, rfl, rfl, rfl⟩, ?_⟩
  simp only [calculate_financial_impact, finRecord, Option.getD_some, hfine, hcost]
  norm_num [FinancialImpactR.mk.injEq]

/-! Helper lemmas about the back-fill loop of `_parse_response`. -/

theorem backfill_obj (fs : List String) : ∀ kvs : List (String × Json),
    backfill fs (Json.obj kvs) = Except.ok (Json.obj (backfillList fs kvs)) := by
  induction fs with
  | nil => intro kvs; rfl
  | cons f rest ih =>
    intro kvs
    cases hkv : hasKey kvs f with
    | true => simp [backfill, pyContains, hkv, backfillList, ih]
    | false => simp [backfill, pyContains, pySetItem, hkv, backfillList, ih]

theorem hasKey_append (kvs l : List (String × Json)) (k : String) :
    hasKey (kvs ++ l) k = (hasKey kvs k || hasKey l k) := by
  simp [hasKey, List.any_append]

theorem hasKey_backfillList_mono (fs : List String) : ∀ kvs k,
    hasKey kvs k = true → hasKey (backfillList fs kvs) k = true := by
  induction fs with
  | nil => intro kvs k h; exact h
  | cons f rest ih =>
    intro kvs k h
    simp only [backfillList]
    cases hkv : hasKey kvs f with
    | true => simpa [hkv] using ih kvs k h
    | false =>
      simp only [hkv, if_neg Bool.false_ne_true]
      exact ih _ k (by simp [hasKey_append, h])

theorem hasKey_backfillList_of_mem (fs : List String) : ∀ kvs f,
    f ∈ fs → hasKey (backfillList fs kvs) f = true := by
  induction fs with
  | nil => intro kvs f h; cases h
  | cons g rest ih =>
    intro kvs f hf
    simp only [backfillList]
    rcases List.mem_cons.mp hf with hfg | hfr
    · subst hfg
      cases hkv : hasKey kvs f with
      | true => simpa [hkv] using hasKey_backfillList_mono rest kvs f hkv
      | false =>
        simp only [hkv, if_neg Bool.false_ne_true]
        exact hasKey_backfillList_mono rest _ f (by simp [hasKey_append, hasKey])
    · cases hkv : hasKey kvs g with
      | true => simpa [hkv] using ih kvs f hfr
      | false => simp only [hkv, if_neg Bool.false_ne_true]; exact ih _ f hfr

theorem hasKey_backfillList_of_not_mem (fs : List String) : ∀ kvs g,
    hasKey kvs g = false → g ∉ fs → hasKey (backfillList fs kvs) g = false := by
  induction fs with
  | nil => intro kvs g h _; exact h
  | cons f rest ih =>
    intro kvs g h hg
    have hgf : g ≠ f := fun hc => hg (hc ▸ List.mem_cons_self f rest)
    have hgr : g ∉ rest := fun hc => hg (List.mem_cons_of_mem f hc)
    simp only [backfillList]
    cases hkv : hasKey kvs f with
    | true => simpa [hkv] using ih kvs g h hgr
    | false =>
      simp only [hkv, if_neg Bool.false_ne_true]
      refine ih _ g ?_ hgr
      have hbeq : (f == g) = false := beq_eq_false_iff_ne.mpr (Ne.symm hgf)
      rw [hasKey_append, h]
      simp [hasKey, hbeq]

theorem backfillList_all_present (fs : List String) : ∀ kvs,
    (∀ f ∈ fs, hasKey kvs f = true) → backfillList fs kvs = kvs := by
  induction fs with
  | nil => intro kvs _; rfl
  | cons f rest ih =>
    intro kvs h
    simp only [backfillList, h f (List.mem_cons_self f rest), if_pos rfl]
    exact ih kvs (fun g hg => h g (List.mem_cons_of_mem f hg))

/-- C2 (amended): on the direct-parse path, exactly the nine fields of the
code's `required_fields` list are back-filled — each absent one gets its
`_get_default_value` default appended, present values are untouched — while
`estimated_compliance_cost` and `potential_fine_if_inspected` are never
back-filled and stay absent when the payload omits them. -/
theorem c2_backfill_covers_only_nine_fields (s : List Char)
    (kvs : List (String × Json))
    (h : jsonParse (stripFences s) = some (Json.obj kvs)) :
    parse_response s = Except.ok (Json.obj (backfillList requiredFields kvs)) ∧
    (∀ f ∈ requiredFields, hasKey (backfillList requiredFields kvs) f = true) ∧
    (hasKey kvs "estimated_compliance_cost" = false →
      hasKey (backfillList requiredFields kvs) "estimated_compliance_cost" = false) ∧
    (hasKey kvs "potential_fine_if_inspected" = false →
      hasKey (backfillList requiredFields kvs) "potential_fine_if_inspected" = false) := by
  refine ⟨?_, ?_, ?_, ?_⟩
  · simp only [parse_response, h]
    exact backfill_obj requiredFields kvs
  · intro f hf
    exact hasKey_backfillList_of_mem requiredFields kvs f hf
  · intro h0
    exact hasKey_backfillList_of_not_mem requiredFields kvs _ h0 (by decide)
  · intro h0
    exact hasKey_backfillList_of_not_mem requiredFields kvs _ h0 (by decide)

/-- C2 witness: the theorem applied to a payload providing only
`total_workers`; the other eight required fields get their defaults and the
two cost fields stay absent. -/
theorem c2_backfill_covers_only_nine_fields_witness :
    parse_response "\x7b\x22total_workers\x22: 3\x7d".toList =
      Except.ok (Json.obj (backfillList requiredFields [("total_workers", Json.num 3)])) ∧
    (∀ f ∈ requiredFields,
      hasKey (backfillList requiredFields [("total_workers", Json.num 3)]) f = true) ∧
    (hasKey [("total_workers", Json.num 3)] "estimated_compliance_cost" = false →
      hasKey (backfillList requiredFields [("total_workers", Json.num 3)])
        "estimated_compliance_cost" = false) ∧
    (hasKey [("total_workers", Json.num 3)] "potential_fine_if_inspected" = false →
      hasKey (backfillList requiredFields [("total_workers", Json.num 3)])
        "potential_fine_if_inspected" = false) :=
  c2_backfill_covers_only_nine_fields _ _ rfl

/-- C2 counterexample: normalizing the successfully parsed empty object
back-fills the nine required fields but leaves `estimated_compliance_cost`
(and `potential_fine_if_inspected`) absent, so the back-fill does not cover
all AnalysisRecord fields as the claim states. -/
theorem c2_empty_object_lacks_cost_fields :
    parse_response "\x7b\x7d".toList =
      Except.ok (Json.obj (requiredFields.map (fun f => (f, get_default_value f)))) ∧
    hasKey (requiredFields.map (fun f => (f, get_default_value f)))
      "estimated_compliance_cost" = false ∧
    hasKey (requiredFields.map (fun f => (f, get_default_value f)))
      "potential_fine_if_inspected" = false := by
  exact ⟨rfl, rfl, rfl⟩

/-- C9: a payload whose (fence-stripped) text parses to an object already
containing all nine required fields normalizes to exactly that object,
unchanged. -/
theorem c9_round_trip (s : List Char) (kvs : List (String × Json))
    (h : jsonParse (stripFences s) = some (Json.obj kvs))
    (hall : ∀ f ∈ requiredFields, hasKey kvs f = true) :
    parse_response s = Except.ok (Json.obj kvs) := by
  simp only [parse_response, h]
  rw [backfill_obj requiredFields kvs, backfillList_all_present requiredFields kvs hall]

set_option maxRecDepth 8000 in
/-- C9 witness: a complete payload with all nine required fields (plus the
two cost fields) round-trips unchanged. -/
theorem c9_round_trip_witness :
    parse_response ("\x7b\x22total_workers\x22: 2, \x22workers_compliant\x22: 1, " ++
        "\x22workers_non_compliant\x22: 1, \x22critical_violations\x22: [], " ++
        "\x22warnings\x22: [], \x22compliant_items\x22: [\x22Good lighting\x22], " ++
        "\x22overall_compliance_score\x22: 90, \x22risk_assessment\x22: \x22LOW\x22, " ++
        "\x22immediate_actions\x22: [], \x22estimated_compliance_cost\x22: \x22₹0\x22, " ++
        "\x22potential_fine_if_inspected\x22: \x22₹0\x22\x7d").toList =
      Except.ok (Json.obj
        [("total_workers", Json.num 2), ("workers_compliant", Json.num 1),
         ("workers_non_compliant", Json.num 1), ("critical_violations", Json.arr []),
         ("warnings", Json.arr []), ("compliant_items", Json.arr [Json.str "Good lighting"]),
         ("overall_compliance_score", Json.num 90), ("risk_assessment", Json.str "LOW"),
         ("immediate_actions", Json.arr []), ("estimated_compliance_cost", Json.str "₹0"),
         ("potential_fine_if_inspected", Json.str "₹0")]) :=
  c9_round_trip _ _ rfl (by decide)

/-- C4 (amended): when parsing fails even after the brace repair, `normalize`
returns the DefaultAnalysisRecord (all counts 0, one MEDIUM warning noting
the parse failure, compliance 50, risk label MEDIUM) and propagates nothing —
but the claim's "for any input string whatsoever" is too strong: an input
that parses to a bare JSON scalar (number, boolean or null) makes the
back-fill's `field not in result` raise a `TypeError` that escapes
`_parse_response`. -/
theorem c4_default_on_parse_failure_but_scalars_raise :
    (∀ s : List Char, jsonParse (stripFences s) = none →
      (countChar s '}' < countChar s '{' →
        jsonParse (s ++ List.replicate (countChar s '{' - countChar s '}') '}') = none) →
      parse_response s = Except.ok default_response) ∧
    (jGet default_response "total_workers" = some (Json.num 0) ∧
      jGet default_response "workers_compliant" = some (Json.num 0) ∧
      jGet default_response "workers_non_compliant" = some (Json.num 0) ∧
      jGet default_response "critical_violations" = some (Json.arr []) ∧
      jGet default_response "overall_compliance_score" = some (Json.num 50) ∧
      jGet default_response "risk_assessment" = some (Json.str "MEDIUM") ∧
      (∃ w : Json, jGet default_response "warnings" = some (Json.arr [w]) ∧
        jGet w "risk_level" = some (Json.str "MEDIUM") ∧
        jGet w "violation" = some (Json.str "Unable to analyze image completely"))) ∧
    (∀ (s : List Char) (q : ℚ), jsonParse (stripFences s) = some (Json.num q) →
      parse_response s = Except.error typeErrorMsg) ∧
    (∀ (s : List Char) (b : Bool), jsonParse (stripFences s) = some (Json.bool b) →
      parse_response s = Except.error typeErrorMsg) ∧
    (∀ s : List Char, jsonParse (stripFences s) = some Json.null →
      parse_response s = Except.error typeErrorMsg) := by
  refine ⟨?_, ⟨rfl, rfl, rfl, rfl, rfl, rfl, ⟨_, rfl, rfl, rfl⟩⟩, ?_, ?_, ?_⟩
  · intro s h hrep
    simp only [parse_response, h]
    by_cases hc : countChar s '}' < countChar s '{'
    · simp only [if_pos hc, hrep hc]
    · simp only [if_neg hc]
  · intro s q h
    simp only [parse_response, h, backfill, requiredFields, pyContains]
  · intro s b h
    simp only [parse_response, h, backfill, requiredFields, pyContains]
  · intro s h
    simp only [parse_response, h, backfill, requiredFields, pyContains]

/-- C4 witness: the theorem applied to the non-JSON input "hello" (default
record, no repair possible) and to the scalar input "null" (TypeError). -/
theorem c4_default_on_parse_failure_but_scalars_raise_witness :
    parse_response "hello".toList = Except.ok default_response ∧
    parse_response "null".toList = Except.error typeErrorMsg :=
  ⟨c4_default_on_parse_failure_but_scalars_raise.1 _ rfl
      (fun hc => absurd hc (by decide)),
    c4_default_on_parse_failure_but_scalars_raise.2.2.2.2 _ rfl⟩

/-- C4 counterexample: on the input "42" — a string, so included in the
claim's "any input string whatsoever" — `_parse_response` does not return a
record at all: the `TypeError` from `'total_workers' not in 42` escapes
(only `json.JSONDecodeError` is caught), so an error is propagated to the
caller. -/
theorem c4_input_42_raises :
    parse_response "42".toList = Except.error typeErrorMsg := rfl

/-- C5 (amended): fence stripping does precede the first parse, but the
single brace-repair heuristic is applied to the RAW un-stripped text (the
code counts braces on and appends braces to `response_text`, not the
stripped `cleaned_text`), and a repaired parse is returned without the
required-field back-fill; consequently an unfenced truncated payload is
repaired and parsed, while a fenced-and-truncated payload falls through to
the default record. -/
theorem c5_repair_applies_to_raw_text :
    (∀ (s : List Char) (j : Json), jsonParse (stripFences s) = some j →
      parse_response s = backfill requiredFields j) ∧
    (∀ (s : List Char) (j : Json), jsonParse (stripFences s) = none →
      countChar s '}' < countChar s '{' →
      jsonParse (s ++ List.replicate (countChar s '{' - countChar s '}') '}') = some j →
      parse_response s = Except.ok j) := by
  constructor
  · intro s j h
    simp only [parse_response, h]
  · intro s j h hc hrep
    simp only [parse_response, h, if_pos hc, hrep]

/-- C5 witness: the theorem applied to a fence-stripped payload (direct
parse) and to an unfenced truncated payload, which the raw-text repair
completes to a parse that is returned as-is. -/
theorem c5_repair_applies_to_raw_text_witness :
    parse_response "```json\n\x7b\x22warnings\x22: []\x7d\n```".toList =
      backfill requiredFields (Json.obj [("warnings", Json.arr [])]) ∧
    parse_response "\x7b\x22total_workers\x22: 1".toList =
      Except.ok (Json.obj [("total_workers", Json.num 1)]) :=
  ⟨c5_repair_applies_to_raw_text.1 _ _ rfl,
    c5_repair_applies_to_raw_text.2 _ _ rfl (by decide) rfl⟩

/-- C5 counterexample: a payload that is both code-fence-wrapped and
truncated (one more opening than closing brace, valid once a brace is
appended after stripping) is NOT repaired: the repair parse runs on the raw
text, still starts with the fence and fails, so normalization falls through
to the default record, contrary to the claim. -/
theorem c5_fenced_truncated_falls_to_default :
    parse_response "```json\n\x7b\x22total_workers\x22: 1".toList =
      Except.ok default_response := rfl

/-- C6: `analyze_image` classifies every per-attempt failure by message —
timeout-like (contains "504", or "timeout" case-insensitively) failures are
retried with back-off sleeps of 2 then 4 seconds (attempt index times 2) up
to the 3-attempt budget, and exhaustion returns the timeout fallback record;
any other failure returns the error fallback record immediately with no
retry; the timeout record has zeroed counts, one MEDIUM warning describing
the timeout and risk label UNKNOWN, the error record carries a HIGH warning
with the error text and compliance score 0; in every case a record is
returned, never an exception. -/
theorem c6_retry_classification_and_fallbacks :
    (∀ (oracle : ℕ → AttemptOutcome) (m0 m1 m2 : String),
      attemptResult oracle 0 = Except.error m0 → isTimeoutMsg m0 = true →
      attemptResult oracle 1 = Except.error m1 → isTimeoutMsg m1 = true →
      attemptResult oracle 2 = Except.error m2 → isTimeoutMsg m2 = true →
      analyze_image oracle = (timeout_response, [2, 4])) ∧
    (∀ (oracle : ℕ → AttemptOutcome) (m : String),
      attemptResult oracle 0 = Except.error m → isTimeoutMsg m = false →
      analyze_image oracle = (error_response m, [])) ∧
    (∀ (oracle : ℕ → AttemptOutcome) (m0 m : String),
      attemptResult oracle 0 = Except.error m0 → isTimeoutMsg m0 = true →
      attemptResult oracle 1 = Except.error m → isTimeoutMsg m = false →
      analyze_image oracle = (error_response m, [2])) ∧
    (∀ (oracle : ℕ → AttemptOutcome) (m0 m1 m : String),
      attemptResult oracle 0 = Except.error m0 → isTimeoutMsg m0 = true →
      attemptResult oracle 1 = Except.error m1 → isTimeoutMsg m1 = true →
      attemptResult oracle 2 = Except.error m → isTimeoutMsg m = false →
      analyze_image oracle = (error_response m, [2, 4])) ∧
    (∀ (oracle : ℕ → AttemptOutcome) (j : Json),
      attemptResult oracle 0 = Except.ok j →
      analyze_image oracle = (j, [])) ∧
    (jGet timeout_response "total_workers" = some (Json.num 0) ∧
      jGet timeout_response "workers_compliant" = some (Json.num 0) ∧
      jGet timeout_response "workers_non_compliant" = some (Json.num 0) ∧
      jGet timeout_response "critical_violations" = some (Json.arr []) ∧
      jGet timeout_response "risk_assessment" = some (Json.str "UNKNOWN") ∧
      (∃ w : Json, jGet timeout_response "warnings" = some (Json.arr [w]) ∧
        jGet w "risk_level" = some (Json.str "MEDIUM") ∧
        jGet w "violation" =
          some (Json.str "Request timed out - The AI model took too long to respond"))) ∧
    (∀ m : String,
      jGet (error_response m) "overall_compliance_score" = some (Json.num 0) ∧
      jGet (error_response m) "risk_assessment" = some (Json.str "UNKNOWN") ∧
      (∃ w : Json, jGet (error_response m) "warnings" = some (Json.arr [w]) ∧
        jGet w "risk_level" = some (Json.str "HIGH") ∧
        jGet w "violation" = some (Json.str ("Analysis error: " ++ m)))) := by
  refine ⟨?_, ?_, ?_, ?_, ?_,
    ⟨rfl, rfl, rfl, rfl, rfl, ⟨_, rfl, rfl, rfl⟩⟩,
    fun m => ⟨rfl, rfl, ⟨_, rfl, rfl, rfl⟩⟩⟩
  · intro oracle m0 m1 m2 h0 t0 h1 t1 h2 t2
    simp only [analyze_image, analyzeGo, h0, t0, h1, t1, h2, t2]
    norm_num
  · intro oracle m h0 t0
    simp only [analyze_image, analyzeGo, h0, t0]
    norm_num
  · intro oracle m0 m h0 t0 h1 t1
    simp only [analyze_image, analyzeGo, h0, t0, h1, t1]
    norm_num
  · intro oracle m0 m1 m h0 t0 h1 t1 h2 t2
    simp only [analyze_image, analyzeGo, h0, t0, h1, t1, h2, t2]
    norm_num
  · intro oracle j h0
    simp only [analyze_image, analyzeGo, h0]

/-- C6 witness: a run whose three attempts all fail with a gateway-timeout
message returns the timeout record after sleeping 2 and 4 seconds, and a run
whose first attempt fails with a non-timeout message returns the error
record at once. -/
theorem c6_retry_classification_and_fallbacks_witness :
    analyze_image (fun _ => AttemptOutcome.raised "504 Deadline Exceeded") =
      (timeout_response, [2, 4]) ∧
    analyze_image (fun _ => AttemptOutcome.raised "Response blocked by safety filters") =
      (error_response "Response blocked by safety filters", []) :=
  ⟨c6_retry_classification_and_fallbacks.1 _ _ _ _ rfl rfl rfl rfl rfl rfl,
    c6_retry_classification_and_fallbacks.2.1 _ _ rfl rfl⟩

end Constrite
